import Mathlib

/-!
Shallow embedding of `pybind11_protobuf/fast_cpp_proto_casters.h`.

The native side is modelled by an explicit heap of message objects.  A message
carries the identity of its `Reflection` instance (compared by pointer equality
in the source), its descriptor full name, and its field contents collapsed to a
single natural number.  Pointers are heap addresses; `new` appends to the heap
and bumps an allocation counter; message assignment (`operator=` / `CopyFrom`)
bumps a copy counter.  Python handles are modelled by the three shapes the
casters distinguish: `None`, a fast_cpp_proto object wrapping a C++ message
pointer, and any other python proto carrying an optional descriptor name and an
optional serializable payload (population via `PyProtoCopyToCProto` succeeds
exactly when a payload is present).
-/

/-- A C++ protobuf message instance: identity of its `Reflection` object
(pointer identity, as compared by `GetReflection()`), its descriptor full name,
and its contents. -/
structure Msg where
  refl : Nat
  typeName : String
  data : Nat
deriving DecidableEq, Repr

/-- The native heap: allocated messages (an address is an index into `objs`,
allocation appends), plus counters observing allocations and value copies. -/
structure Heap where
  objs : List Msg
  allocCount : Nat
  copyCount : Nat
deriving DecidableEq, Repr

/-- Dereference an address; out-of-range addresses read as a dummy object. -/
def Heap.get (h : Heap) (a : Nat) : Msg := h.objs.getD a ⟨0, "", 0⟩

/-- `new`: append a fresh object, return the new heap and its address. -/
def Heap.alloc (h : Heap) (m : Msg) : Heap × Nat :=
  (⟨h.objs ++ [m], h.allocCount + 1, h.copyCount⟩, h.objs.length)

/-- Message assignment (`*dst = src` / `dst->CopyFrom(src)`): overwrite the
contents of the object at `dst` and count one value copy. -/
def Heap.assignInto (h : Heap) (dst : Nat) (d : Nat) : Heap :=
  ⟨h.objs.set dst { h.get dst with data := d }, h.allocCount, h.copyCount + 1⟩

/-- A plain mutation of the object at address `a` (used to observe aliasing:
two addresses alias iff writing through one changes what the other reads). -/
def Heap.writeData (h : Heap) (a : Nat) (d : Nat) : Heap :=
  ⟨h.objs.set a { h.get a with data := d }, h.allocCount, h.copyCount⟩

/-- A python handle as seen by the casters: `None`, a fast_cpp_proto object
wrapping a C++ message at an address, or another python proto object exposing
an optional descriptor full name and an optional payload from which a C++
message can be populated. -/
inductive PyHandle where
  | pynone
  | wrapped (addr : Nat)
  | pyObj (descName : Option String) (payload : Option Nat)
deriving DecidableEq, Repr

/-- `pybind11_protobuf::PyProtoGetCppMessagePointer`: yields the underlying C++
message pointer when the handle is a fast_cpp_proto instance, else null. -/
def PyProtoGetCppMessagePointer : PyHandle → Option Nat
  | .wrapped a => some a
  | _ => none

/-- `pybind11_protobuf::PyProtoDescriptorName`: the handle's reported
descriptor full name, if any.  The loaders only consult it on handles that are
not fast_cpp_proto instances, so the `wrapped` branch is never reached. -/
def PyProtoDescriptorName : PyHandle → Option String
  | .pyObj nm _ => nm
  | _ => none

/-- `pybind11_protobuf::PyProtoCopyToCProto`: serialize the python object and
deserialize into the C++ object at `dst`; returns the updated heap on success,
`none` on failure (no payload available). -/
def PyProtoCopyToCProto (src : PyHandle) (h : Heap) (dst : Nat) : Option Heap :=
  match src with
  | .pyObj _ (some d) => some (h.assignInto dst d)
  | _ => none

/-- A concrete `ProtoType` template argument: the `Reflection` identity of its
`default_instance()` and its `descriptor()->full_name()`.  A
default-constructed instance has contents `0`. -/
structure ProtoTy where
  refl : Nat
  fullName : String
deriving DecidableEq, Repr

/-- The state of a `proto_caster_load_impl`: `value` (the borrowed
`const ProtoType *`) and `owned` (the `std::unique_ptr<ProtoType>`), each
null or an address. -/
structure LoadState where
  value : Option Nat
  owned : Option Nat
deriving DecidableEq, Repr

/-- A freshly constructed caster: `owned` is a null `unique_ptr` and no loaded
value is reachable. -/
def LoadState.empty : LoadState := ⟨none, none⟩

/-- `proto_caster_load_impl<ProtoType>::load` (exact-type loader), lines
90-129 of the source.  The unused `convert` flag is omitted.  Returns the
boolean result together with the caster state and the heap after the call;
failure is the soft value `false`, never an exception. -/
def load (T : ProtoTy) (st : LoadState) (h : Heap) (src : PyHandle) :
    Bool × LoadState × Heap :=
  match src with
  | .pynone => (true, { st with value := none }, h)
  | _ =>
    match PyProtoGetCppMessagePointer src with
    | some a =>
      if (h.get a).refl != T.refl then
        (false, st, h)
      else
        (true, { st with value := some a }, h)
    | none =>
      match PyProtoDescriptorName src with
      | none => (false, st, h)
      | some nm =>
        if nm != T.fullName then
          (false, st, h)
        else
          match h.alloc ⟨T.refl, T.fullName, 0⟩ with
          | (h1, a) =>
            match PyProtoCopyToCProto src h1 a with
            | some h2 => (true, ⟨some a, some a⟩, h2)
            | none => (false, ⟨some a, some a⟩, h1)

/-- `proto_caster_load_impl<ProtoType>::as_unique_ptr`, lines 133-140: if
there is no value, return null; if `owned` is null, allocate a same-type
instance with `value->New()` and assign `*value` into it; finally
`std::move(owned)` out, leaving `owned` null in the state. -/
def as_unique_ptr (st : LoadState) (h : Heap) :
    Option Nat × LoadState × Heap :=
  match st.value with
  | none => (none, st, h)
  | some v =>
    match st.owned with
    | some o => (some o, { st with owned := none }, h)
    | none =>
      match h.alloc ⟨(h.get v).refl, (h.get v).typeName, 0⟩ with
      | (h1, a) => (some a, { st with owned := none }, h1.assignInto a (h.get v).data)

/-- `proto_caster_load_impl<::google::protobuf::Message>::load` (abstract-base
loader), lines 150-179.  Note: `value` is assigned the (possibly null) result
of `PyProtoGetCppMessagePointer`, and `owned` is assigned the (possibly null)
result of `AllocateCProtoByName`.  The registry maps descriptor full names to
the `Reflection` identity of the generated class in the C++ default pool. -/
def message_load (reg : List (String × Nat)) (st : LoadState) (h : Heap)
    (src : PyHandle) : Bool × LoadState × Heap :=
  match src with
  | .pynone => (true, { st with value := none }, h)
  | _ =>
    match PyProtoGetCppMessagePointer src with
    | some a => (true, { st with value := some a }, h)
    | none =>
      match PyProtoDescriptorName src with
      | none => (false, { st with value := none }, h)
      | some nm =>
        match (reg.find? (fun p => p.1 == nm)).map (fun p => p.2) with
        | none => (false, ⟨none, none⟩, h)
        | some r =>
          match h.alloc ⟨r, nm, 0⟩ with
          | (h1, a) =>
            match PyProtoCopyToCProto src h1 a with
            | some h2 => (true, ⟨some a, some a⟩, h2)
            | none => (false, ⟨some a, some a⟩, h1)

/-- The pybind11 `return_value_policy` enumeration. -/
inductive RVP where
  | automatic
  | automatic_reference
  | copy
  | reference
  | reference_internal
  | move
  | take_ownership
deriving DecidableEq, Repr

/-- The printable name of a policy enumerator. -/
def policyName : RVP → String
  | .automatic => "automatic"
  | .automatic_reference => "automatic_reference"
  | .copy => "copy"
  | .reference => "reference"
  | .reference_internal => "reference_internal"
  | .move => "move"
  | .take_ownership => "take_ownership"

/-- The python-side representation produced by a cast: `None`, a wrapper
aliasing a native address (with or without a keep-alive edge to the parent),
or an independent copy at a fresh address. -/
inductive CastOutcome where
  | pynone
  | aliasRef (addr : Nat) (keepAlive : Bool)
  | copyObj (addr : Nat)
deriving DecidableEq, Repr

/-- Modelled from the spec: `pybind11_protobuf::GenericFastCppProtoCast`
(declared in `proto_cast_util.h`, implementation not under `src/`).  Per the
spec's Cast Policy Engine: `reference` produces a direct alias with no
keep-alive edge, `reference_internal` produces an alias with a keep-alive edge
to the parent; every other policy resolves to copy semantics and produces an
independent python-side object populated from the source by one full value
copy, never aliased back. -/
def GenericFastCppProtoCast (a : Nat) (policy : RVP) (_parent : Option Nat)
    (_is_const : Bool) (h : Heap) : CastOutcome × Heap :=
  match policy with
  | .reference => (.aliasRef a false, h)
  | .reference_internal => (.aliasRef a true, h)
  | _ =>
    match h.alloc ⟨(h.get a).refl, (h.get a).typeName, 0⟩ with
    | (h1, b) => (.copyObj b, h1.assignInto b (h.get a).data)

/-- The exact text thrown by `fast_cpp_cast_impl::cast_impl` for a const
source with a reference policy (source lines 204-207). -/
def fastCppErrMsg : String :=
  "Cannot return a const reference to a ::google::protobuf::Message derived type.  Consider setting return_value_policy::copy in the pybind11 def()."

/-- `fast_cpp_cast_impl::cast_impl`, lines 197-212: null source casts to
`None`; a const source with policy `reference` or `reference_internal` throws
a `type_error` (modelled as `Except.error` carrying the message text);
otherwise the cast is delegated to `GenericFastCppProtoCast`. -/
def cast_impl (src : Option Nat) (policy : RVP) (parent : Option Nat)
    (is_const : Bool) (h : Heap) : Except String (CastOutcome × Heap) :=
  match src with
  | none => .ok (.pynone, h)
  | some a =>
    if is_const && (policy == RVP.reference || policy == RVP.reference_internal) then
      .error fastCppErrMsg
    else
      .ok (GenericFastCppProtoCast a policy parent is_const h)

/-- `proto_caster::cast(ProtoType const &, policy, parent)`, lines 269-277:
after normalizing `automatic`/`automatic_reference`, the call passes
`return_value_policy::copy` and `is_const = true` to `cast_impl`
unconditionally. -/
def proto_caster_cast_const_ref (a : Nat) (_policy : RVP)
    (parent : Option Nat) (h : Heap) : Except String (CastOutcome × Heap) :=
  cast_impl (some a) RVP.copy parent true h

/-- `copyable_holder_caster::cast`, lines 412-418: a null referent casts to
`None`; otherwise the shared container's referent is unwrapped and cast via
`Base::cast(*ptr, return_value_policy::copy, p)` — the requested policy is
ignored entirely. -/
def copyable_holder_caster_cast (holder : Option Nat) (_policy : RVP)
    (parent : Option Nat) (h : Heap) : Except String (CastOutcome × Heap) :=
  match holder with
  | none => .ok (.pynone, h)
  | some a => proto_caster_cast_const_ref a RVP.copy parent h

/-- Substring test on character lists: prefix check. -/
def listStartsWith : List Char → List Char → Bool
  | [], _ => true
  | _ :: _, [] => false
  | a :: as, b :: bs => a == b && listStartsWith as bs

/-- Substring test on character lists: containment check. -/
def listContainsSub (p : List Char) : List Char → Bool
  | [] => listStartsWith p []
  | b :: bs => listStartsWith p (b :: bs) || listContainsSub p bs

/-- Whether `pat` occurs as a contiguous substring of `s`. -/
def strContainsSub (s pat : String) : Bool :=
  listContainsSub pat.toList s.toList

/-! ## Auxiliary list and heap lemmas -/

/-- Reading the freshly appended element of a list. -/
theorem listGetD_append_length {α : Type} (l : List α) (m d : α) :
    (l ++ [m]).getD l.length d = m := by
  rw [List.getD_append_right _ _ _ _ (Nat.le_refl _), Nat.sub_self]
  rfl

/-- Overwriting the freshly appended element of a list. -/
theorem listSet_append_length {α : Type} (l : List α) (m m' : α) :
    (l ++ [m]).set l.length m' = l ++ [m'] := by
  induction l with
  | nil => rfl
  | cons a as ih => simp [List.set, ih]

/-- Writing at one index leaves every other index unchanged. -/
theorem listGetD_set_ne {α : Type} (l : List α) (i j : Nat) (x d : α)
    (hij : i ≠ j) : (l.set i x).getD j d = l.getD j d := by
  induction l generalizing i j with
  | nil => rfl
  | cons a as ih =>
    cases i with
    | zero =>
      cases j with
      | zero => exact absurd rfl hij
      | succ j => rfl
    | succ i =>
      cases j with
      | zero => rfl
      | succ j => exact ih i j (fun hh => hij (congrArg Nat.succ hh))

/-- Allocating a fresh object and assigning contents into it appends exactly
one object holding the copied contents, and bumps each counter once. -/
theorem append_assign_objs (h : Heap) (m : Msg) (d : Nat) :
    Heap.assignInto ⟨h.objs ++ [m], h.allocCount + 1, h.copyCount⟩
        h.objs.length d
      = ⟨h.objs ++ [{ m with data := d }], h.allocCount + 1, h.copyCount + 1⟩ := by
  unfold Heap.assignInto Heap.get
  simp only
  rw [listGetD_append_length, listSet_append_length]

/-- `as_unique_ptr` on a borrowed-only state: one `New()` allocation of a
same-type instance, one value copy from the borrowed pointer, the fresh
address is returned, and the state keeps the borrowed pointer with a null
`owned`. -/
theorem as_unique_ptr_borrowed (h : Heap) (v : Nat) :
    as_unique_ptr ⟨some v, none⟩ h
      = (some h.objs.length, ⟨some v, none⟩,
         ⟨h.objs ++ [⟨(h.get v).refl, (h.get v).typeName, (h.get v).data⟩],
          h.allocCount + 1, h.copyCount + 1⟩) := by
  show (some h.objs.length, (⟨some v, none⟩ : LoadState),
        Heap.assignInto
          ⟨h.objs ++ [⟨(h.get v).refl, (h.get v).typeName, 0⟩],
           h.allocCount + 1, h.copyCount⟩
          h.objs.length (h.get v).data) = _
  rw [append_assign_objs]

/-- `GenericFastCppProtoCast` under copy semantics produces an independent
fresh object holding a value copy of the source. -/
theorem gfpc_copy_result (a : Nat) (q : Option Nat) (c : Bool) (h : Heap) :
    GenericFastCppProtoCast a RVP.copy q c h
      = (.copyObj h.objs.length,
         ⟨h.objs ++ [⟨(h.get a).refl, (h.get a).typeName, (h.get a).data⟩],
          h.allocCount + 1, h.copyCount + 1⟩) := by
  show (CastOutcome.copyObj h.objs.length,
        Heap.assignInto
          ⟨h.objs ++ [⟨(h.get a).refl, (h.get a).typeName, 0⟩],
           h.allocCount + 1, h.copyCount⟩
          h.objs.length (h.get a).data) = _
  rw [append_assign_objs]

/-- The exact-type loader rejects a wrapped C++ message whose `Reflection`
instance differs from the expected one, touching neither state nor heap. -/
theorem load_wrapped_reflection_mismatch (T : ProtoTy) (st : LoadState)
    (h : Heap) (a : Nat) (hm : (h.get a).refl ≠ T.refl) :
    load T st h (.wrapped a) = (false, st, h) := by
  have hb : ((h.get a).refl != T.refl) = true := bne_iff_ne.mpr hm
  show (if (h.get a).refl != T.refl then ((false, st, h) : Bool × LoadState × Heap)
        else (true, { st with value := some a }, h)) = (false, st, h)
  rw [hb]
  rfl

/-! ## Claim theorems -/

/-- C2 (counterexample): loading a fast_cpp_proto handle wrapping a message
whose `Reflection` instance (2) differs from the expected one (1) returns
false with state and heap untouched — no owned object is materialized, so the
load terminates instead of proceeding to the serialize/deserialize fallback as
the claim states. -/
theorem C2_counterexample :
    (load ⟨1, "pkg.A"⟩ LoadState.empty ⟨[⟨2, "pkg.A", 7⟩], 1, 0⟩ (.wrapped 0)).1 = false ∧
    (load ⟨1, "pkg.A"⟩ LoadState.empty ⟨[⟨2, "pkg.A", 7⟩], 1, 0⟩ (.wrapped 0)).2.1
      = LoadState.empty ∧
    (load ⟨1, "pkg.A"⟩ LoadState.empty ⟨[⟨2, "pkg.A", 7⟩], 1, 0⟩ (.wrapped 0)).2.2
      = ⟨[⟨2, "pkg.A", 7⟩], 1, 0⟩ :=
  ⟨rfl, rfl, rfl⟩

/-- C2 (amended): when the same-process aliasing primitive yields a non-null
native pointer whose `Reflection` instance is not identical to the expected
one, the exact-type `load` fails immediately with the soft result false,
leaving the state and the heap untouched; it does not proceed to the fallback
serialize/deserialize path. -/
theorem C2_reflection_mismatch_terminates (T : ProtoTy) (st : LoadState)
    (h : Heap) (a : Nat) (hm : (h.get a).refl ≠ T.refl) :
    load T st h (.wrapped a) = (false, st, h) :=
  load_wrapped_reflection_mismatch T st h a hm

/-- C2 witness: the amended statement at a concrete mismatching input. -/
theorem C2_reflection_mismatch_terminates_witness :
    load ⟨1, "pkg.A"⟩ LoadState.empty ⟨[⟨2, "pkg.B", 7⟩], 1, 0⟩ (.wrapped 0)
      = (false, LoadState.empty, ⟨[⟨2, "pkg.B", 7⟩], 1, 0⟩) :=
  C2_reflection_mismatch_terminates ⟨1, "pkg.A"⟩ LoadState.empty
    ⟨[⟨2, "pkg.B", 7⟩], 1, 0⟩ 0 (by decide)

/-- C4 (counterexample): starting from a borrowed-only state over a one-object
heap, the first `as_unique_ptr` call returns the fresh copy at address 1, and
a second call on the resulting state returns a different fresh object at
address 2 — it does not return or reuse the same owned copy. -/
theorem C4_counterexample :
    (as_unique_ptr ⟨some 0, none⟩ ⟨[⟨1, "pkg.A", 5⟩], 1, 0⟩).1 = some 1 ∧
    (as_unique_ptr (as_unique_ptr ⟨some 0, none⟩ ⟨[⟨1, "pkg.A", 5⟩], 1, 0⟩).2.1
        (as_unique_ptr ⟨some 0, none⟩ ⟨[⟨1, "pkg.A", 5⟩], 1, 0⟩).2.2).1 = some 2 ∧
    some 1 ≠ (some 2 : Option Nat) := by
  refine ⟨rfl, rfl, by decide⟩

/-- C4 (amended): `as_unique_ptr` transfers the owned copy out of the state:
a call that finds `owned` set moves that very copy out and leaves `owned`
null with `value` unchanged; a call that finds `owned` null allocates a fresh
copy at the next free address and likewise leaves `owned` null, so a second
call allocates yet another distinct object instead of reusing the first. -/
theorem C4_promotion_transfers_ownership (h : Heap) (v o : Nat) :
    as_unique_ptr ⟨some v, some o⟩ h = (some o, ⟨some v, none⟩, h) ∧
    (as_unique_ptr ⟨some v, none⟩ h).1 = some h.objs.length ∧
    (as_unique_ptr ⟨some v, none⟩ h).2.1 = ⟨some v, none⟩ ∧
    (as_unique_ptr (as_unique_ptr ⟨some v, none⟩ h).2.1
        (as_unique_ptr ⟨some v, none⟩ h).2.2).1 = some (h.objs.length + 1) ∧
    some (h.objs.length + 1) ≠ some h.objs.length := by
  refine ⟨rfl, ?_, ?_, ?_, by simp⟩
  · rw [as_unique_ptr_borrowed]
  · rw [as_unique_ptr_borrowed]
  · rw [as_unique_ptr_borrowed]
    dsimp only
    rw [as_unique_ptr_borrowed]
    dsimp only
    simp

/-- C5: the null round trip.  Loading python `None` through either loader
leaves the state `Empty` (null value, null owned pointer), touches no memory,
and returns true; casting a null native pointer yields the outcome `None` for
every policy, parent, and constness. -/
theorem C5_null_round_trip (T : ProtoTy) (reg : List (String × Nat)) (h : Heap)
    (p : RVP) (q : Option Nat) (c : Bool) :
    load T LoadState.empty h .pynone = (true, LoadState.empty, h) ∧
    message_load reg LoadState.empty h .pynone = (true, LoadState.empty, h) ∧
    cast_impl none p q c h = .ok (.pynone, h) :=
  ⟨rfl, rfl, rfl⟩

/-- C6: zero-copy aliasing.  Loading a handle wrapping a compatible native
object (identical `Reflection` instance) borrows the pointer with no
allocation (state holds only the borrowed pointer, heap unchanged), and a
subsequent `as_unique_ptr` performs exactly one allocation and one value copy,
producing a same-type object holding the borrowed object's contents. -/
theorem C6_zero_copy_aliasing (T : ProtoTy) (h : Heap) (a : Nat)
    (ha : a < h.objs.length) (hr : (h.get a).refl = T.refl) :
    load T LoadState.empty h (.wrapped a) = (true, ⟨some a, none⟩, h) ∧
    (as_unique_ptr ⟨some a, none⟩ h).1 = some h.objs.length ∧
    (as_unique_ptr ⟨some a, none⟩ h).2.1 = ⟨some a, none⟩ ∧
    (as_unique_ptr ⟨some a, none⟩ h).2.2.allocCount = h.allocCount + 1 ∧
    (as_unique_ptr ⟨some a, none⟩ h).2.2.copyCount = h.copyCount + 1 ∧
    (as_unique_ptr ⟨some a, none⟩ h).2.2.objs.length = h.objs.length + 1 ∧
    (as_unique_ptr ⟨some a, none⟩ h).2.2.get h.objs.length
      = ⟨(h.get a).refl, (h.get a).typeName, (h.get a).data⟩ := by
  have hb : ((h.get a).refl != T.refl) = false := by simp [hr]
  have hload : load T LoadState.empty h (.wrapped a) = (true, ⟨some a, none⟩, h) := by
    show (if (h.get a).refl != T.refl
          then ((false, LoadState.empty, h) : Bool × LoadState × Heap)
          else (true, { LoadState.empty with value := some a }, h))
        = (true, ⟨some a, none⟩, h)
    rw [hb]
    rfl
  refine ⟨hload, ?_, ?_, ?_, ?_, ?_, ?_⟩ <;> rw [as_unique_ptr_borrowed]
  · simp
  · exact listGetD_append_length _ _ _

/-- C6 witness: the zero-copy property at a concrete compatible handle. -/
theorem C6_zero_copy_aliasing_witness :
    load ⟨1, "pkg.A"⟩ LoadState.empty ⟨[⟨1, "pkg.A", 5⟩], 1, 0⟩ (.wrapped 0)
      = (true, ⟨some 0, none⟩, ⟨[⟨1, "pkg.A", 5⟩], 1, 0⟩) ∧
    (as_unique_ptr ⟨some 0, none⟩ ⟨[⟨1, "pkg.A", 5⟩], 1, 0⟩).1 = some 1 ∧
    (as_unique_ptr ⟨some 0, none⟩ ⟨[⟨1, "pkg.A", 5⟩], 1, 0⟩).2.1 = ⟨some 0, none⟩ ∧
    (as_unique_ptr ⟨some 0, none⟩ ⟨[⟨1, "pkg.A", 5⟩], 1, 0⟩).2.2.allocCount = 2 ∧
    (as_unique_ptr ⟨some 0, none⟩ ⟨[⟨1, "pkg.A", 5⟩], 1, 0⟩).2.2.copyCount = 1 ∧
    (as_unique_ptr ⟨some 0, none⟩ ⟨[⟨1, "pkg.A", 5⟩], 1, 0⟩).2.2.objs.length = 2 ∧
    (as_unique_ptr ⟨some 0, none⟩ ⟨[⟨1, "pkg.A", 5⟩], 1, 0⟩).2.2.get 1
      = ⟨1, "pkg.A", 5⟩ :=
  C6_zero_copy_aliasing ⟨1, "pkg.A"⟩ ⟨[⟨1, "pkg.A", 5⟩], 1, 0⟩ 0
    (by decide) (by decide)

/-- C7: exact-type schema-name mismatch rejection.  For a handle that is not
backed by a native object and whose reported type name is absent or differs
from the expected full name, the exact-type `load` returns false and leaves
state and heap untouched; `load` is a total boolean function here, so no
exception is involved. -/
theorem C7_type_name_mismatch_soft_fail (T : ProtoTy) (h : Heap)
    (nm : Option String) (pl : Option Nat) (hnm : nm ≠ some T.fullName) :
    load T LoadState.empty h (.pyObj nm pl) = (false, LoadState.empty, h) := by
  cases nm with
  | none => rfl
  | some s =>
    have hs : (s != T.fullName) = true :=
      bne_iff_ne.mpr (fun he => hnm (by rw [he]))
    show (if s != T.fullName
          then ((false, LoadState.empty, h) : Bool × LoadState × Heap)
          else _) = (false, LoadState.empty, h)
    rw [hs]
    rfl

/-- C7 witness: loading a handle reporting `pkg.B` against an adapter
expecting `pkg.A` fails softly and leaves the state empty. -/
theorem C7_type_name_mismatch_soft_fail_witness :
    load ⟨1, "pkg.A"⟩ LoadState.empty ⟨[], 0, 0⟩ (.pyObj (some "pkg.B") (some 3))
      = (false, LoadState.empty, ⟨[], 0, 0⟩) :=
  C7_type_name_mismatch_soft_fail ⟨1, "pkg.A"⟩ ⟨[], 0, 0⟩
    (some "pkg.B") (some 3) (by decide)

/-- C10: the abstract-base (`Message`) loader performs no schema-identity
check on the zero-copy path: any handle wrapping a non-null native pointer is
borrowed unconditionally and `load` succeeds, even when the wrapped object's
`Reflection` instance differs from a given expected one — the very situation
in which the exact-type loader rejects the same handle. -/
theorem C10_abstract_base_skips_identity_check (T : ProtoTy)
    (reg : List (String × Nat)) (st : LoadState) (h : Heap) (a : Nat)
    (hr : (h.get a).refl ≠ T.refl) :
    message_load reg st h (.wrapped a) = (true, { st with value := some a }, h) ∧
    load T st h (.wrapped a) = (false, st, h) :=
  ⟨rfl, load_wrapped_reflection_mismatch T st h a hr⟩

/-- C10 witness: a wrapped message from a different pool (reflection id 2) is
accepted by the abstract-base loader and rejected by the exact-type loader. -/
theorem C10_abstract_base_skips_identity_check_witness :
    message_load [] ⟨none, none⟩ ⟨[⟨2, "pkg.A", 7⟩], 1, 0⟩ (.wrapped 0)
      = (true, ⟨some 0, none⟩, ⟨[⟨2, "pkg.A", 7⟩], 1, 0⟩) ∧
    load ⟨1, "pkg.A"⟩ ⟨none, none⟩ ⟨[⟨2, "pkg.A", 7⟩], 1, 0⟩ (.wrapped 0)
      = (false, ⟨none, none⟩, ⟨[⟨2, "pkg.A", 7⟩], 1, 0⟩) :=
  C10_abstract_base_skips_identity_check ⟨1, "pkg.A"⟩ [] ⟨none, none⟩
    ⟨[⟨2, "pkg.A", 7⟩], 1, 0⟩ 0 (by decide)

/-- C1 (counterexample): loading a handle whose reported name matches but
whose payload cannot be copied (population failure) returns false, yet the
caster state is not empty — the half-initialized freshly allocated object
remains reachable through both `owned` and `value` (address 0 of the grown
heap). -/
theorem C1_counterexample :
    (load ⟨1, "pkg.A"⟩ LoadState.empty ⟨[], 0, 0⟩ (.pyObj (some "pkg.A") none)).1 = false ∧
    (load ⟨1, "pkg.A"⟩ LoadState.empty ⟨[], 0, 0⟩ (.pyObj (some "pkg.A") none)).2.1.owned
      = some 0 ∧
    (load ⟨1, "pkg.A"⟩ LoadState.empty ⟨[], 0, 0⟩ (.pyObj (some "pkg.A") none)).2.1.value
      = some 0 ∧
    (⟨some 0, some 0⟩ : LoadState) ≠ LoadState.empty :=
  ⟨rfl, rfl, rfl, by decide⟩

/-- C1 (amended): when `load` on a freshly constructed caster fails, the state
is either still empty (all early rejection paths: reflection mismatch, missing
or mismatching type name, unknown schema) or — exactly when allocation
succeeded and population from the handle's data failed — the state retains the
freshly allocated, half-initialized object in `owned`, with `value` aliasing
it; the object is not discarded and the pointers are not nulled. -/
theorem C1_failed_load_state (T : ProtoTy) (reg : List (String × Nat))
    (h : Heap) (src : PyHandle) :
    (∀ st' h', load T LoadState.empty h src = (false, st', h') →
      st' = LoadState.empty ∨
      (st'.value = some h.objs.length ∧ st'.owned = some h.objs.length)) ∧
    (∀ st' h', message_load reg LoadState.empty h src = (false, st', h') →
      st' = LoadState.empty ∨
      (st'.value = some h.objs.length ∧ st'.owned = some h.objs.length)) := by
  constructor
  · intro st' h' heq
    cases src with
    | pynone =>
      have h1 : ((true, LoadState.empty, h) : Bool × LoadState × Heap)
          = (false, st', h') := heq
      injection h1 with hb _
      exact Bool.noConfusion hb
    | wrapped a =>
      have h1 : (if (h.get a).refl != T.refl
                 then ((false, LoadState.empty, h) : Bool × LoadState × Heap)
                 else (true, { LoadState.empty with value := some a }, h))
          = (false, st', h') := heq
      by_cases hc : ((h.get a).refl != T.refl) = true
      · rw [if_pos hc] at h1
        injection h1 with _ h2
        injection h2 with h3 _
        exact Or.inl h3.symm
      · rw [if_neg hc] at h1
        injection h1 with hb _
        exact Bool.noConfusion hb
    | pyObj nm pl =>
      cases nm with
      | none =>
        have h1 : ((false, LoadState.empty, h) : Bool × LoadState × Heap)
            = (false, st', h') := heq
        injection h1 with _ h2
        injection h2 with h3 _
        exact Or.inl h3.symm
      | some s =>
        cases pl with
        | none =>
          have h1 : (if s != T.fullName
                     then ((false, LoadState.empty, h) : Bool × LoadState × Heap)
                     else (false, ⟨some h.objs.length, some h.objs.length⟩,
                           ⟨h.objs ++ [⟨T.refl, T.fullName, 0⟩],
                            h.allocCount + 1, h.copyCount⟩))
              = (false, st', h') := heq
          by_cases hs : (s != T.fullName) = true
          · rw [if_pos hs] at h1
            injection h1 with _ h2
            injection h2 with h3 _
            exact Or.inl h3.symm
          · rw [if_neg hs] at h1
            injection h1 with _ h2
            injection h2 with h3 _
            refine Or.inr ?_
            rw [← h3]
            exact ⟨rfl, rfl⟩
        | some d =>
          have h1 : (if s != T.fullName
                     then ((false, LoadState.empty, h) : Bool × LoadState × Heap)
                     else (true, ⟨some h.objs.length, some h.objs.length⟩,
                           Heap.assignInto
                             ⟨h.objs ++ [⟨T.refl, T.fullName, 0⟩],
                              h.allocCount + 1, h.copyCount⟩
                             h.objs.length d))
              = (false, st', h') := heq
          by_cases hs : (s != T.fullName) = true
          · rw [if_pos hs] at h1
            injection h1 with _ h2
            injection h2 with h3 _
            exact Or.inl h3.symm
          · rw [if_neg hs] at h1
            injection h1 with hb _
            exact Bool.noConfusion hb
  · intro st' h' heq
    cases src with
    | pynone =>
      have h1 : ((true, LoadState.empty, h) : Bool × LoadState × Heap)
          = (false, st', h') := heq
      injection h1 with hb _
      exact Bool.noConfusion hb
    | wrapped a =>
      have h1 : ((true, { LoadState.empty with value := some a }, h) :
          Bool × LoadState × Heap) = (false, st', h') := heq
      injection h1 with hb _
      exact Bool.noConfusion hb
    | pyObj nm pl =>
      cases nm with
      | none =>
        have h1 : ((false, LoadState.empty, h) : Bool × LoadState × Heap)
            = (false, st', h') := heq
        injection h1 with _ h2
        injection h2 with h3 _
        exact Or.inl h3.symm
      | some s =>
        cases pl with
        | none =>
          have h1 : (match (reg.find? (fun p => p.1 == s)).map (fun p => p.2) with
                     | none => ((false, LoadState.empty, h) : Bool × LoadState × Heap)
                     | some r => (false, ⟨some h.objs.length, some h.objs.length⟩,
                           ⟨h.objs ++ [⟨r, s, 0⟩], h.allocCount + 1, h.copyCount⟩))
              = (false, st', h') := heq
          cases hfind : (reg.find? (fun p => p.1 == s)).map (fun p => p.2) with
          | none =>
            rw [hfind] at h1
            injection h1 with _ h2
            injection h2 with h3 _
            exact Or.inl h3.symm
          | some r =>
            rw [hfind] at h1
            injection h1 with _ h2
            injection h2 with h3 _
            refine Or.inr ?_
            rw [← h3]
            exact ⟨rfl, rfl⟩
        | some d =>
          have h1 : (match (reg.find? (fun p => p.1 == s)).map (fun p => p.2) with
                     | none => ((false, LoadState.empty, h) : Bool × LoadState × Heap)
                     | some r => (true, ⟨some h.objs.length, some h.objs.length⟩,
                           Heap.assignInto
                             ⟨h.objs ++ [⟨r, s, 0⟩], h.allocCount + 1, h.copyCount⟩
                             h.objs.length d))
              = (false, st', h') := heq
          cases hfind : (reg.find? (fun p => p.1 == s)).map (fun p => p.2) with
          | none =>
            rw [hfind] at h1
            injection h1 with _ h2
            injection h2 with h3 _
            exact Or.inl h3.symm
          | some r =>
            rw [hfind] at h1
            injection h1 with hb _
            exact Bool.noConfusion hb

/-- C1 witness: the amended statement applied to a concrete
population-failure input, where the failed load retains `value = owned =
address 0`. -/
theorem C1_failed_load_state_witness :
    (⟨some 0, some 0⟩ : LoadState) = LoadState.empty ∨
    ((⟨some 0, some 0⟩ : LoadState).value = some 0 ∧
     (⟨some 0, some 0⟩ : LoadState).owned = some 0) :=
  (C1_failed_load_state ⟨1, "pkg.A"⟩ [] ⟨[], 0, 0⟩
      (.pyObj (some "pkg.A") none)).1
    ⟨some 0, some 0⟩ ⟨[⟨1, "pkg.A", 0⟩], 1, 0⟩ (by decide)

/-- C3 (counterexample): casting a non-null const source with policy
`reference_internal` does raise the hard type error, but the fixed message
text does not contain the name of the offending policy
(`reference_internal`), contrary to the claim that the message names the
offending policy. -/
theorem C3_counterexample :
    cast_impl (some 0) RVP.reference_internal none true ⟨[⟨1, "pkg.A", 5⟩], 1, 0⟩
      = Except.error fastCppErrMsg ∧
    strContainsSub fastCppErrMsg (policyName RVP.reference_internal) = false :=
  ⟨rfl, rfl⟩

/-- C3 (amended): for a non-null const source and a policy equal to
`reference` or `reference_internal`, the cast raises the hard type error with
a fixed message; that message contains the word `reference` and suggests the
corrective policy `copy` (but does not name `reference_internal`
specifically); casting the same pointer with policy `copy` succeeds and
produces an independent fresh copy of the source. -/
theorem C3_const_reference_hard_error (a : Nat) (p : RVP) (q : Option Nat)
    (h : Heap) (hp : p = RVP.reference ∨ p = RVP.reference_internal) :
    cast_impl (some a) p q true h = Except.error fastCppErrMsg ∧
    strContainsSub fastCppErrMsg (policyName RVP.reference) = true ∧
    strContainsSub fastCppErrMsg (policyName RVP.copy) = true ∧
    cast_impl (some a) RVP.copy q true h
      = Except.ok (CastOutcome.copyObj h.objs.length,
          ⟨h.objs ++ [⟨(h.get a).refl, (h.get a).typeName, (h.get a).data⟩],
           h.allocCount + 1, h.copyCount + 1⟩) := by
  refine ⟨?_, rfl, rfl, ?_⟩
  · rcases hp with rfl | rfl <;> rfl
  · show Except.ok (GenericFastCppProtoCast a RVP.copy q true h) = _
    rw [gfpc_copy_result]

/-- C3 witness: the amended statement at policy `reference` over a concrete
one-object heap. -/
theorem C3_const_reference_hard_error_witness :
    cast_impl (some 0) RVP.reference none true ⟨[⟨1, "pkg.A", 5⟩], 1, 0⟩
      = Except.error fastCppErrMsg ∧
    strContainsSub fastCppErrMsg (policyName RVP.reference) = true ∧
    strContainsSub fastCppErrMsg (policyName RVP.copy) = true ∧
    cast_impl (some 0) RVP.copy none true ⟨[⟨1, "pkg.A", 5⟩], 1, 0⟩
      = Except.ok (CastOutcome.copyObj 1,
          ⟨[⟨1, "pkg.A", 5⟩, ⟨1, "pkg.A", 5⟩], 2, 1⟩) :=
  C3_const_reference_hard_error 0 RVP.reference none
    ⟨[⟨1, "pkg.A", 5⟩], 1, 0⟩ (Or.inl rfl)

/-- C8: abstract-base unknown-schema rejection.  For a handle that is not
backed by a native object and whose reported type name is not in the native
schema registry, the `Message` loader returns false leaving the state empty
and the heap untouched — in particular no population (value copy) is ever
attempted. -/
theorem C8_unknown_schema_rejection (reg : List (String × Nat))
    (st : LoadState) (h : Heap) (nm : String) (pl : Option Nat)
    (hreg : reg.find? (fun p => p.1 == nm) = none) :
    message_load reg st h (.pyObj (some nm) pl) = (false, ⟨none, none⟩, h) ∧
    (message_load reg st h (.pyObj (some nm) pl)).2.2.copyCount = h.copyCount := by
  have hmap : (reg.find? (fun p => p.1 == nm)).map (fun p => p.2) = none := by
    rw [hreg]
    rfl
  have hmain : message_load reg st h (.pyObj (some nm) pl)
      = (false, ⟨none, none⟩, h) := by
    cases pl with
    | none =>
      have h1 : message_load reg st h (.pyObj (some nm) none)
          = (match (reg.find? (fun p => p.1 == nm)).map (fun p => p.2) with
             | none => ((false, (⟨none, none⟩ : LoadState), h) :
                 Bool × LoadState × Heap)
             | some r => (false, ⟨some h.objs.length, some h.objs.length⟩,
                 ⟨h.objs ++ [⟨r, nm, 0⟩], h.allocCount + 1, h.copyCount⟩)) := rfl
      rw [h1, hmap]
    | some d =>
      have h1 : message_load reg st h (.pyObj (some nm) (some d))
          = (match (reg.find? (fun p => p.1 == nm)).map (fun p => p.2) with
             | none => ((false, (⟨none, none⟩ : LoadState), h) :
                 Bool × LoadState × Heap)
             | some r => (true, ⟨some h.objs.length, some h.objs.length⟩,
                 Heap.assignInto
                   ⟨h.objs ++ [⟨r, nm, 0⟩], h.allocCount + 1, h.copyCount⟩
                   h.objs.length d)) := rfl
      rw [h1, hmap]
  exact ⟨hmain, by rw [hmain]⟩

/-- C8 witness: a handle reporting `pkg.Unregistered` against a registry
holding only `pkg.A` is rejected with an empty state and an untouched heap. -/
theorem C8_unknown_schema_rejection_witness :
    message_load [("pkg.A", 1)] ⟨some 9, none⟩ ⟨[], 0, 0⟩
        (.pyObj (some "pkg.Unregistered") (some 3))
      = (false, ⟨none, none⟩, ⟨[], 0, 0⟩) ∧
    (message_load [("pkg.A", 1)] ⟨some 9, none⟩ ⟨[], 0, 0⟩
        (.pyObj (some "pkg.Unregistered") (some 3))).2.2.copyCount = 0 :=
  C8_unknown_schema_rejection [("pkg.A", 1)] ⟨some 9, none⟩ ⟨[], 0, 0⟩
    "pkg.Unregistered" (some 3) (by decide)

/-- C9: the shared (copyable-holder) adapter never aliases.  Casting a
non-null referent twice through `copyable_holder_caster::cast` always uses
copy semantics regardless of the requested policies: each cast produces an
independent fresh object holding a value copy of the referent, the two
results are distinct from each other and from the original, and mutating any
one of the three leaves the other two unchanged. -/
theorem C9_shared_adapter_never_aliases (p1 p2 : RVP) (q1 q2 : Option Nat)
    (h : Heap) (a : Nat) (ha : a < h.objs.length) :
    ∃ b1 h1 b2 h2,
      copyable_holder_caster_cast (some a) p1 q1 h
        = Except.ok (CastOutcome.copyObj b1, h1) ∧
      copyable_holder_caster_cast (some a) p2 q2 h1
        = Except.ok (CastOutcome.copyObj b2, h2) ∧
      b1 ≠ a ∧ b2 ≠ a ∧ b1 ≠ b2 ∧
      h2.get b1 = ⟨(h.get a).refl, (h.get a).typeName, (h.get a).data⟩ ∧
      h2.get b2 = ⟨(h.get a).refl, (h.get a).typeName, (h.get a).data⟩ ∧
      ∀ d, (h2.writeData b1 d).get b2 = h2.get b2 ∧
           (h2.writeData b2 d).get b1 = h2.get b1 ∧
           (h2.writeData b1 d).get a = h2.get a ∧
           (h2.writeData b2 d).get a = h2.get a := by
  have hlen : (h.objs
      ++ [(⟨(h.get a).refl, (h.get a).typeName, (h.get a).data⟩ : Msg)]).length
      = h.objs.length + 1 := by simp
  refine ⟨h.objs.length,
    ⟨h.objs ++ [⟨(h.get a).refl, (h.get a).typeName, (h.get a).data⟩],
     h.allocCount + 1, h.copyCount + 1⟩,
    h.objs.length + 1,
    ⟨(h.objs ++ [⟨(h.get a).refl, (h.get a).typeName, (h.get a).data⟩])
       ++ [⟨(h.get a).refl, (h.get a).typeName, (h.get a).data⟩],
     h.allocCount + 2, h.copyCount + 2⟩, ?_, ?_, ?_, ?_, ?_, ?_, ?_, ?_⟩
  · show Except.ok (GenericFastCppProtoCast a RVP.copy q1 true h) = _
    rw [gfpc_copy_result]
  · show Except.ok (GenericFastCppProtoCast a RVP.copy q2 true
        ⟨h.objs ++ [⟨(h.get a).refl, (h.get a).typeName, (h.get a).data⟩],
         h.allocCount + 1, h.copyCount + 1⟩) = _
    rw [gfpc_copy_result]
    have hH1a : Heap.get
        ⟨h.objs ++ [⟨(h.get a).refl, (h.get a).typeName, (h.get a).data⟩],
         h.allocCount + 1, h.copyCount + 1⟩ a = h.get a :=
      List.getD_append _ _ _ _ ha
    rw [hH1a]
    show Except.ok (CastOutcome.copyObj (h.objs
        ++ [(⟨(h.get a).refl, (h.get a).typeName, (h.get a).data⟩ : Msg)]).length, _)
      = _
    rw [hlen]
  · omega
  · omega
  · omega
  · show ((h.objs ++ [(⟨(h.get a).refl, (h.get a).typeName, (h.get a).data⟩ : Msg)])
        ++ [(⟨(h.get a).refl, (h.get a).typeName, (h.get a).data⟩ : Msg)]).getD
          h.objs.length (⟨0, "", 0⟩ : Msg)
      = (⟨(h.get a).refl, (h.get a).typeName, (h.get a).data⟩ : Msg)
    have hlt : h.objs.length < (h.objs
        ++ [(⟨(h.get a).refl, (h.get a).typeName, (h.get a).data⟩ : Msg)]).length := by
      simp
    rw [List.getD_append _ _ _ _ hlt]
    exact listGetD_append_length _ _ _
  · show ((h.objs ++ [(⟨(h.get a).refl, (h.get a).typeName, (h.get a).data⟩ : Msg)])
        ++ [(⟨(h.get a).refl, (h.get a).typeName, (h.get a).data⟩ : Msg)]).getD
          (h.objs.length + 1) (⟨0, "", 0⟩ : Msg)
      = (⟨(h.get a).refl, (h.get a).typeName, (h.get a).data⟩ : Msg)
    rw [← hlen]
    exact listGetD_append_length _ _ _
  · intro d
    refine ⟨?_, ?_, ?_, ?_⟩
    · exact listGetD_set_ne _ _ _ _ _ (by omega)
    · exact listGetD_set_ne _ _ _ _ _ (by omega)
    · exact listGetD_set_ne _ _ _ _ _ (by omega)
    · exact listGetD_set_ne _ _ _ _ _ (by omega)

/-- C9 witness: the never-aliasing property at a concrete one-object heap
with two different requested policies. -/
theorem C9_shared_adapter_never_aliases_witness :
    ∃ b1 h1 b2 h2,
      copyable_holder_caster_cast (some 0) RVP.reference none
          ⟨[⟨1, "pkg.A", 5⟩], 1, 0⟩
        = Except.ok (CastOutcome.copyObj b1, h1) ∧
      copyable_holder_caster_cast (some 0) RVP.move none h1
        = Except.ok (CastOutcome.copyObj b2, h2) ∧
      b1 ≠ 0 ∧ b2 ≠ 0 ∧ b1 ≠ b2 ∧
      h2.get b1 = ⟨1, "pkg.A", 5⟩ ∧
      h2.get b2 = ⟨1, "pkg.A", 5⟩ ∧
      ∀ d, (h2.writeData b1 d).get b2 = h2.get b2 ∧
           (h2.writeData b2 d).get b1 = h2.get b1 ∧
           (h2.writeData b1 d).get 0 = h2.get 0 ∧
           (h2.writeData b2 d).get 0 = h2.get 0 :=
  C9_shared_adapter_never_aliases RVP.reference RVP.move none none
    ⟨[⟨1, "pkg.A", 5⟩], 1, 0⟩ 0 (by decide)
